import Mathlib

/-!
Shallow embedding of the arXiv search client in
`nonebot_plugin_literature` (files `arxivreq/__init__.py`,
`arxivreq/client.py`, `arxivreq/exception.py`, `utils.py`), together with
theorems settling the frozen claims about its specification.

Conventions: Python `None` becomes `Option.none`; exceptions become
`Except`/`Option` error values; the synchronous `Client` generator is
modelled as a finite trace of events (page fetches and yielded values) so
that laziness of `itertools.islice` over the generator can be expressed
as trace truncation.
-/

namespace ArxivReq

/-- Python regex character class for whitespace as used by
`re.sub(r"\s+", " ", title)` in `Result._from_feed_entry`
(`arxivreq/__init__.py` line 132), restricted to the ASCII range. -/
def isPyWs (c : Char) : Bool :=
  c == ' ' || c == '\t' || c == '\n' || c == '\r' || c == Char.ofNat 11 || c == Char.ofNat 12

/-- Worker for `collapseWs`: the Boolean records whether the previous
character was whitespace (so a whole run collapses to one space). -/
def collapseWsGo : Bool → List Char → List Char
  | _, [] => []
  | prevWs, c :: cs =>
    if isPyWs c then
      if prevWs then collapseWsGo true cs
      else ' ' :: collapseWsGo true cs
    else c :: collapseWsGo false cs

/-- Embedding of `re.sub(r"\s+", " ", title)` from
`Result._from_feed_entry` (`arxivreq/__init__.py` line 132). -/
def collapseWs (s : String) : String :=
  ⟨collapseWsGo false s.data⟩

/-- Embedding of `Result.Link` (`arxivreq/__init__.py` lines 277-335):
href plus optional title, rel and content type. -/
structure Link where
  href : String
  title? : Option String
  rel? : Option String
  contentType? : Option String
deriving DecidableEq, Repr

/-- Embedding of `Result.Author` (`arxivreq/__init__.py` lines 240-275). -/
structure Author where
  name : String
deriving DecidableEq, Repr

/-- Embedding of a feedparser entry as read by `Result._from_feed_entry`
(`arxivreq/__init__.py` lines 112-142): `id?`/`title?` are `none` when
`hasattr` is false; fields read with `.get(...)` are `Option`s. -/
structure FeedEntry where
  id? : Option String
  updatedParsed : Nat
  publishedParsed : Nat
  title? : Option String
  authors : List String
  summary : String
  arxivComment : Option String
  arxivJournalRef : Option String
  arxivDoi : Option String
  primaryCategoryTerm : Option String
  tagTerms : List (Option String)
  links : List Link
deriving DecidableEq, Repr

/-- Embedding of `arxiv.Result` (`arxivreq/__init__.py` lines 27-158):
the decoded search-result record, including the derived `pdf_url`. -/
structure Result where
  entry_id : String
  updated : Nat
  published : Nat
  title : String
  authors : List Author
  summary : String
  comment : Option String
  journal_ref : Option String
  doi : Option String
  primary_category : Option String
  categories : List (Option String)
  links : List Link
  pdf_url : Option String
deriving DecidableEq, Repr

/-- Embedding of `Result._get_pdf_url` (`arxivreq/__init__.py` lines
217-229): the href of the first link titled "pdf", if any. -/
def Result.getPdfUrl (links : List Link) : Option String :=
  match (links.filter fun l => l.title? = some "pdf").map (fun l => l.href) with
  | [] => none
  | u :: _ => some u

/-- Embedding of `Result._from_feed_entry` (`arxivreq/__init__.py` lines
112-142). Raising `Result.MissingFieldError("id")` when the entry has no
`id` attribute becomes the error value "id"; a missing title defaults to
the sentinel "0"; the title has whitespace runs collapsed. -/
def Result.fromFeedEntry (entry : FeedEntry) : Except String Result :=
  match entry.id? with
  | none => .error "id"
  | some eid =>
    let title := match entry.title? with
      | some t => t
      | none => "0"
    .ok
      { entry_id := eid
        updated := entry.updatedParsed
        published := entry.publishedParsed
        title := collapseWs title
        authors := entry.authors.map Author.mk
        summary := entry.summary
        comment := entry.arxivComment
        journal_ref := entry.arxivJournalRef
        doi := entry.arxivDoi
        primary_category := entry.primaryCategoryTerm
        categories := entry.tagTerms
        links := entry.links
        pdf_url := Result.getPdfUrl entry.links }

/-- Embedding of the feedparser feed object as used by `Client._results`
(`arxivreq/client.py` lines 151-174): the entry list and the
`opensearch_totalresults` metadata of the feed. -/
structure Feed where
  entries : List FeedEntry
  totalResults : Nat
deriving DecidableEq, Repr

/-- Values that the generator `Client._results` can yield. The source
statement at `arxivreq/client.py` line 167 is `yield Result._from_feed_entry`
with no call parentheses, so the yielded value is the function object
itself (`funcFromFeedEntry`), never a decoded `Result`. -/
inductive PyVal where
  | funcFromFeedEntry : PyVal
  | result : Result → PyVal
deriving DecidableEq, Repr

/-- Observable events of one run of the generator `Client._results`:
a page request issued at a start offset, or a yielded value. -/
inductive Ev where
  | fetch : Nat → Ev
  | out : PyVal → Ev
deriving DecidableEq, Repr

/-- Values yielded along a trace, in order. -/
def yieldsOf (tr : List Ev) : List PyVal :=
  tr.filterMap fun e =>
    match e with
    | .out v => some v
    | .fetch _ => none

/-- Page-request start offsets along a trace, in order. -/
def fetchesOf (tr : List Ev) : List Nat :=
  tr.filterMap fun e =>
    match e with
    | .fetch s => some s
    | .out _ => none

/-- Number of values yielded along a trace. -/
def yieldCount (tr : List Ev) : Nat :=
  (yieldsOf tr).length

/-- Lazy consumption of at most `n` yielded values from a generator
trace, modelling `itertools.islice(gen, n)` (`arxivreq/client.py` line
149): the consumer executes generator events only until the n-th yield
is delivered, so events after it (further fetches) never run; if the
trace has fewer than `n` yields the whole trace runs. -/
def takeYields : Nat → List Ev → List Ev
  | 0, _ => []
  | _ + 1, [] => []
  | n + 1, Ev.fetch s :: rest => Ev.fetch s :: takeYields (n + 1) rest
  | n + 1, Ev.out v :: rest => Ev.out v :: takeYields n rest

/-- Errors of one page fetch, embedding `arxivreq/exception.py`:
`HTTPError(url, retry, status)`, `UnexpectedEmptyPageError(url, retry, feed)`,
and the library exception `httpx.ConnectError` (which carries the request
URL but no retry index of this client). -/
inductive FetchErr where
  | httpError : String → Nat → Nat → FetchErr
  | emptyPage : String → Nat → FetchErr
  | connectError : String → FetchErr
deriving DecidableEq, Repr

/-- URL carried by a fetch error (`ArxivError.url`; for the httpx
connection error, the URL of the failed request). -/
def FetchErr.urlOf : FetchErr → Option String
  | .httpError u _ _ => some u
  | .emptyPage u _ => some u
  | .connectError u => some u

/-- Retry index carried by a fetch error (`ArxivError.retry`); the httpx
connection error carries none. -/
def FetchErr.retryOf : FetchErr → Option Nat
  | .httpError _ r _ => some r
  | .emptyPage _ r => some r
  | .connectError _ => none

/-- Outcome of one HTTP GET issued by `Client.__try_parse_feed`
(`arxivreq/client.py` line 211): either the connection fails, or a
response with an HTTP status code whose body feedparser parses to `Feed`. -/
inductive Resp where
  | connectError : Resp
  | resp : Nat → Feed → Resp
deriving DecidableEq, Repr

/-- Embedding of the body of `Client.__try_parse_feed`
(`arxivreq/client.py` lines 196-226), given the transport outcome `r` of
its single GET: a connection failure propagates `httpx.ConnectError`;
a non-200 status raises `HTTPError(url, try_index, status)`; a page with
zero entries raises `UnexpectedEmptyPageError(url, try_index, feed)` only
when it is not the first page; otherwise the feed is returned. -/
def tryParseFeed (url : String) (firstPage : Bool) (tryIndex : Nat) (r : Resp) :
    Except FetchErr Feed :=
  match r with
  | .connectError => .error (.connectError url)
  | .resp status feed =>
    if status ≠ 200 then .error (.httpError url tryIndex status)
    else if feed.entries.isEmpty && !firstPage then .error (.emptyPage url tryIndex)
    else .ok feed

/-- Success test on a fetch outcome. -/
def isOkE : Except FetchErr Feed → Bool
  | .ok _ => true
  | .error _ => false

/-- Error payload of a failed fetch outcome (dummy value in the
unreachable success case). -/
def errOf : Except FetchErr Feed → FetchErr
  | .error e => e
  | .ok _ => .connectError ""

/-- Embedding of `Client._parse_feed` (`arxivreq/client.py` lines
176-194): try the fetch; on `HTTPError`, `UnexpectedEmptyPageError` or
`httpx.ConnectError`, recurse with `_try_index + 1` while
`_try_index < num_retries`, else re-raise. `transport i` is the GET
outcome of attempt `i`; the second component records the attempt indices
actually tried, in order. -/
def parseFeed (transport : Nat → Resp) (numRetries : Nat) (url : String)
    (firstPage : Bool) (tryIndex : Nat) : Except FetchErr Feed × List Nat :=
  match tryParseFeed url firstPage tryIndex (transport tryIndex) with
  | .ok f => (.ok f, [tryIndex])
  | .error e =>
    if h : tryIndex < numRetries then
      let r := parseFeed transport numRetries url firstPage (tryIndex + 1)
      (r.1, tryIndex :: r.2)
    else (.error e, [tryIndex])
termination_by numRetries - tryIndex
decreasing_by omega

deriving instance DecidableEq for Except

/-- One run of the rate-limited `Client.__try_parse_feed` through the
`BasicClient.rate_limiter` sync wrapper: the fetch result, the clock at
the end, and the successive values written to `_last_request_dt`. -/
structure FetchRun where
  result : Except FetchErr Feed
  finalNow : Nat
  writes : List Nat
deriving DecidableEq, Repr

/-- Embedding of one acquire call: `BasicClient.rate_limiter`'s
`sync_wrapper` (`arxivreq/client.py` lines 106-116) around the body of
`Client.__try_parse_feed` (lines 196-226). Time is an abstract `Nat`
clock: the wrapper sleeps until `last + delay` when needed, then writes
`_last_request_dt := now` (first write, line 115) and calls the body;
the body's GET takes `getDuration` and then writes `_last_request_dt`
again (second write, line 212) unless the GET itself raised a connection
error, after which the status and empty-page checks run. -/
def rateLimitedTryParseFeed (delaySeconds getDuration : Nat) (url : String)
    (firstPage : Bool) (tryIndex : Nat) (r : Resp) (now : Nat)
    (last : Option Nat) : FetchRun :=
  let afterSleep :=
    match last with
    | none => now
    | some t => if now - t < delaySeconds then t + delaySeconds else now
  match r with
  | .connectError =>
    { result := .error (.connectError url)
      finalNow := afterSleep + getDuration
      writes := [afterSleep] }
  | .resp status feed =>
    let afterGet := afterSleep + getDuration
    if status ≠ 200 then
      { result := .error (.httpError url tryIndex status)
        finalNow := afterGet
        writes := [afterSleep, afterGet] }
    else if feed.entries.isEmpty && !firstPage then
      { result := .error (.emptyPage url tryIndex)
        finalNow := afterGet
        writes := [afterSleep, afterGet] }
    else
      { result := .ok feed
        finalNow := afterGet
        writes := [afterSleep, afterGet] }

/-- Embedding of the `while feed.entries:` loop of `Client._results`
(`arxivreq/client.py` lines 164-174), with `fetch o` the outcome of
`self._parse_feed(self._format_url(search, o, page_size), first_page=False)`
for the page starting at offset `o`. One iteration: if the current page
has no entries the loop exits; otherwise the statement
`yield Result._from_feed_entry` runs once per entry (yielding the
function object — the surrounding `try/except Result.MissingFieldError`
can never fire because nothing is called), `offset` advances by the
number of entries actually present, the loop breaks when
`offset >= total_results`, and otherwise the next page is fetched. A
fetch error ends the trace with that error (the exception propagates out
of the generator). -/
def resultsLoopE (fetch : Nat → Except FetchErr Feed) (total : Nat)
    (offset : Nat) (entries : List FeedEntry) : List Ev × Option FetchErr :=
  match entries with
  | [] => ([], none)
  | e :: es =>
    let outs := (e :: es).map fun _ => Ev.out PyVal.funcFromFeedEntry
    if _h : total ≤ offset + (e :: es).length then (outs, none)
    else
      match fetch (offset + (e :: es).length) with
      | .error err => (outs ++ [Ev.fetch (offset + (e :: es).length)], some err)
      | .ok feed =>
        let r := resultsLoopE fetch total (offset + (e :: es).length) feed.entries
        (outs ++ Ev.fetch (offset + (e :: es).length) :: r.1, r.2)
termination_by total - offset
decreasing_by simp only [List.length_cons] at *; omega

/-- Embedding of the generator `Client._results` (`arxivreq/client.py`
lines 151-174): fetch the first page at `offset`; if it has no entries
the generator stops at once (before reading `opensearch_totalresults`);
otherwise `total_results` is read from the first page's metadata and the
`while` loop runs. `fetch o first` abstracts
`self._parse_feed(page_url, first_page=first)` for the page at offset
`o`. The result is the trace of events the generator produces when
driven to completion, plus the error that escapes it, if any. -/
def resultsGenE (fetch : Nat → Bool → Except FetchErr Feed) (offset : Nat) :
    List Ev × Option FetchErr :=
  match fetch offset true with
  | .error e => ([Ev.fetch offset], some e)
  | .ok feed =>
    if feed.entries.isEmpty then ([Ev.fetch offset], none)
    else
      let r := resultsLoopE (fun o => fetch o false) feed.totalResults offset feed.entries
      (Ev.fetch offset :: r.1, r.2)

/-- A transport in which every page fetch succeeds: `server o` is the
feed served for the page starting at offset `o`. -/
def okFetch (server : Nat → Feed) : Nat → Bool → Except FetchErr Feed :=
  fun o _ => .ok (server o)

/-- The trace of `Client._results` against an always-succeeding server. -/
def resultsGen (server : Nat → Feed) (offset : Nat) : List Ev :=
  (resultsGenE (okFetch server) offset).1

/-- Embedding of `limit = search.max_results - offset if search.max_results
else None` (`arxivreq/client.py` line 146). Python truthiness: both
`None` and `0` for `max_results` give `limit = None`. -/
def limitOf (maxResults : Option Int) (offset : Nat) : Option Int :=
  match maxResults with
  | none => none
  | some m => if m = 0 then none else some (m - (offset : Int))

/-- Embedding of `Client.results` (`arxivreq/client.py` lines 131-149):
compute `limit`; if `limit` is truthy and negative return `iter(())`
(no generator is even started); otherwise return
`itertools.islice(self._results(search, offset), limit)`. The returned
pair is the trace of events executed when the caller drains the islice,
and the error the caller observes, if any — an error is observed only if
the caller still wants more values when the generator's trace ends. -/
def clientResults (fetch : Nat → Bool → Except FetchErr Feed)
    (maxResults : Option Int) (offset : Nat) : List Ev × Option FetchErr :=
  match limitOf maxResults offset with
  | none => resultsGenE fetch offset
  | some l =>
    if l < 0 then ([], none)
    else
      let r := resultsGenE fetch offset
      (takeYields l.toNat r.1, if l.toNat ≤ yieldCount r.1 then none else r.2)

/-- Reference cursor from the specification (spec section 4.4, steps 4-5):
starting from the page served at `offset`, advance the offset by the
number of entries actually present in that page, stop exactly when the
advanced offset reaches `total` (or when a page has no entries), and
otherwise record a fetch of the next page at the advanced offset. This is
the spec-side definition that the code's fetch trace is compared with. -/
def specCursorStarts (server : Nat → Feed) (total offset : Nat) : List Nat :=
  if _h1 : (server offset).entries.length = 0 then []
  else if _h2 : total ≤ offset + (server offset).entries.length then []
  else
    (offset + (server offset).entries.length) ::
      specCursorStarts server total (offset + (server offset).entries.length)
termination_by total - offset
decreasing_by omega

/-- Minimal XML element model for `utils.py`: the children reachable by
the paths that `find_text` is called with, each with its optional text
(`None` text in ElementTree becomes `none`). -/
structure XmlElement where
  fields : List (String × Option String)
deriving DecidableEq, Repr

/-- Embedding of `find_text` (`utils.py` lines 31-35): the text of the
element found at `path`, or the empty string when the element is absent
or its text is `None`. -/
def find_text (element : XmlElement) (path : String) : String :=
  match element.fields.lookup path with
  | some (some t) => t
  | _ => ""

/-- Accumulator pass of decimal-digit parsing for `pyInt?`. -/
def digitsAux : List Char → Nat → Option Nat
  | [], acc => some acc
  | c :: cs, acc =>
    if c.isDigit then digitsAux cs (acc * 10 + (c.toNat - 48)) else none

/-- Value of a nonempty all-digit character list; `none` when empty or
when any character is not a decimal digit. -/
def digitsToNat? : List Char → Option Nat
  | [] => none
  | c :: cs => digitsAux (c :: cs) 0

/-- Leading and trailing whitespace removal, as Python `int` does before
parsing a string. -/
def stripPyWs (cs : List Char) : List Char :=
  ((cs.dropWhile isPyWs).reverse.dropWhile isPyWs).reverse

/-- Embedding of Python's `int(s)` on a string argument: surrounding
whitespace is ignored, an optional sign precedes a nonempty digit run;
anything else raises `ValueError` (here `none`). -/
def pyInt? (s : String) : Option Int :=
  match stripPyWs s.data with
  | '-' :: rest => (digitsToNat? rest).map fun n => -(n : Int)
  | '+' :: rest => (digitsToNat? rest).map fun n => (n : Int)
  | cs => (digitsToNat? cs).map fun n => (n : Int)

/-- Embedding of `int(find_text(...) or 0)` (`utils.py` lines 85-87):
an empty string is falsy, so `int` receives the integer `0`; a nonempty
string is passed to `int(s)`, which raises on non-numeric text. -/
def intOrZero (s : String) : Option Int :=
  if s = "" then some 0 else pyInt? s

/-- Embedding of the `feed_info` numeric-metadata block of `atom_parser`
(`utils.py` lines 80-88): total-results count, start index and
items-per-page, each computed as `int(find_text(data, path, ns) or 0)`;
`none` models the `ValueError` escaping `atom_parser`. -/
def atomParserMeta (data : XmlElement) : Option (Int × Int × Int) := do
  let tr ← intOrZero (find_text data "opensearch:totalResults")
  let si ← intOrZero (find_text data "opensearch:startIndex")
  let ip ← intOrZero (find_text data "opensearch:itemsPerPage")
  pure (tr, si, ip)

/-- Right-hand operands of `Result.__eq__`: either another `Result` or a
value of any other Python class (abstracted by a tag). -/
inductive PyObj where
  | result : Result → PyObj
  | other : String → PyObj
deriving DecidableEq, Repr

/-- Embedding of `Result.__eq__` (`arxivreq/__init__.py` lines 155-158):
if the operand is a `Result`, compare `entry_id` strings; otherwise
return `False`. -/
def resultEq (self : Result) (other : PyObj) : Bool :=
  match other with
  | .result r => self.entry_id == r.entry_id
  | .other _ => false

/-- A well-formed feed entry with identifier a1, used as concrete input. -/
def entryA : FeedEntry :=
  { id? := some "https://arxiv.org/abs/a1"
    updatedParsed := 10
    publishedParsed := 5
    title? := some "Alpha  Title"
    authors := ["A. Author"]
    summary := "sa"
    arxivComment := none
    arxivJournalRef := none
    arxivDoi := none
    primaryCategoryTerm := some "cs.AI"
    tagTerms := [some "cs.AI"]
    links := [] }

/-- A well-formed feed entry with identifier b2, used as concrete input. -/
def entryB : FeedEntry :=
  { id? := some "https://arxiv.org/abs/b2"
    updatedParsed := 20
    publishedParsed := 6
    title? := some "Beta"
    authors := ["B. Author"]
    summary := "sb"
    arxivComment := none
    arxivJournalRef := none
    arxivDoi := none
    primaryCategoryTerm := some "cs.LO"
    tagTerms := [some "cs.LO"]
    links := [] }

/-- A feed entry lacking its identifier (no `id` attribute). -/
def entryNoId : FeedEntry :=
  { id? := none
    updatedParsed := 1
    publishedParsed := 1
    title? := some "No Id"
    authors := []
    summary := ""
    arxivComment := none
    arxivJournalRef := none
    arxivDoi := none
    primaryCategoryTerm := none
    tagTerms := []
    links := [] }

/-- The record `Result._from_feed_entry` decodes from `entryA`. -/
def resultA : Result :=
  { entry_id := "https://arxiv.org/abs/a1"
    updated := 10
    published := 5
    title := "Alpha Title"
    authors := [⟨"A. Author"⟩]
    summary := "sa"
    comment := none
    journal_ref := none
    doi := none
    primary_category := some "cs.AI"
    categories := [some "cs.AI"]
    links := []
    pdf_url := none }

/-- The record `Result._from_feed_entry` decodes from `entryB`. -/
def resultB : Result :=
  { entry_id := "https://arxiv.org/abs/b2"
    updated := 20
    published := 6
    title := "Beta"
    authors := [⟨"B. Author"⟩]
    summary := "sb"
    comment := none
    journal_ref := none
    doi := none
    primary_category := some "cs.LO"
    categories := [some "cs.LO"]
    links := []
    pdf_url := none }

/-- A server holding exactly one record. -/
def serverOne : Nat → Feed :=
  fun _ => { entries := [entryA], totalResults := 1 }

/-- A server covering two records in two pages of size one. -/
def serverTwoPages : Nat → Feed :=
  fun o => if o = 0 then { entries := [entryA], totalResults := 2 }
           else { entries := [entryB], totalResults := 2 }

/-- A server whose single page holds an entry missing its identifier
followed by a well-formed entry. -/
def serverMissingId : Nat → Feed :=
  fun _ => { entries := [entryNoId, entryB], totalResults := 2 }

/-- A feed with no entries. -/
def feedNil : Feed :=
  { entries := [], totalResults := 0 }

/-- A trace with no events requests nothing. -/
lemma fetchesOf_nil : fetchesOf [] = [] := rfl

/-- Yield events contribute no fetch offsets. -/
lemma fetchesOf_cons_out (v : PyVal) (l : List Ev) :
    fetchesOf (Ev.out v :: l) = fetchesOf l := by
  simp [fetchesOf]

/-- A leading fetch event contributes its start offset. -/
lemma fetchesOf_cons_fetch (s : Nat) (l : List Ev) :
    fetchesOf (Ev.fetch s :: l) = s :: fetchesOf l := by
  simp [fetchesOf]

/-- Fetch offsets distribute over trace concatenation. -/
lemma fetchesOf_append (a b : List Ev) :
    fetchesOf (a ++ b) = fetchesOf a ++ fetchesOf b := by
  simp [fetchesOf, List.filterMap_append]

/-- A run of yield events contributes no fetch offsets. -/
lemma fetchesOf_replicate_out (n : Nat) (v : PyVal) :
    fetchesOf (List.replicate n (Ev.out v)) = [] := by
  induction n with
  | zero => rfl
  | succ n ih => simp [List.replicate_succ, fetchesOf_cons_out, ih]

/-- Against an always-succeeding server, the page-start offsets the
`while` loop of `Client._results` requests are exactly those of the
specification cursor. -/
lemma fetchesOf_loop (server : Nat → Feed) (total : Nat) (offset : Nat) :
    fetchesOf (resultsLoopE (fun o => Except.ok (server o)) total offset (server offset).entries).1
      = specCursorStarts server total offset := by
  induction offset using specCursorStarts.induct server total with
  | case1 x h1 =>
    rw [List.length_eq_zero] at h1
    simp [resultsLoopE, specCursorStarts, h1, fetchesOf_nil]
  | case2 x h1 h2 =>
    rcases hE : (server x).entries with _ | ⟨e, es⟩
    · simp [hE] at h1
    · rw [hE] at h2
      simp only [List.length_cons] at h2
      rw [specCursorStarts]
      simp [resultsLoopE, hE, h2, fetchesOf_cons_out, fetchesOf_replicate_out, fetchesOf_nil]
  | case3 x h1 h2 ih =>
    rcases hE : (server x).entries with _ | ⟨e, es⟩
    · simp [hE] at h1
    · rw [hE] at h2 ih
      simp only [List.length_cons] at h2 ih
      rw [specCursorStarts]
      simp only [resultsLoopE, hE, List.length_cons, dif_neg h2, List.map_cons]
      simp [h2, fetchesOf_cons_out, fetchesOf_replicate_out, fetchesOf_append,
        fetchesOf_cons_fetch, hE]
      simpa [fetchesOf_cons_out, fetchesOf_replicate_out, fetchesOf_append,
        fetchesOf_cons_fetch] using ih

/-- Every non-initial page start produced by the specification cursor
lies strictly between the starting offset and the recorded total. -/
lemma specCursorStarts_mem (server : Nat → Feed) (total offset : Nat) :
    ∀ s ∈ specCursorStarts server total offset, offset < s ∧ s < total := by
  induction offset using specCursorStarts.induct server total with
  | case1 x h1 => rw [specCursorStarts]; simp [h1]
  | case2 x h1 h2 => rw [specCursorStarts]; simp [h1, h2]
  | case3 x h1 h2 ih =>
    rw [specCursorStarts]
    simp only [dif_neg h1, dif_neg h2, List.mem_cons]
    rintro s (rfl | hs)
    · omega
    · have := ih s hs
      omega

/-- The `while` loop of `Client._results` reads only the entry lists of
the feeds it fetches: two servers serving the same entries everywhere
produce identical loop behaviour, regardless of the `totalResults`
metadata of any later page. -/
lemma resultsLoopE_congr (server server2 : Nat → Feed)
    (h : ∀ o, (server2 o).entries = (server o).entries) (total : Nat)
    (offset : Nat) (entries : List FeedEntry) :
    resultsLoopE (fun o => Except.ok (server2 o)) total offset entries
      = resultsLoopE (fun o => Except.ok (server o)) total offset entries := by
  induction offset, entries using resultsLoopE.induct (fun o => Except.ok (server o)) total with
  | case1 offset => simp [resultsLoopE]
  | case2 offset e es h2 =>
    simp only [List.length_cons] at h2
    simp [resultsLoopE, h2]
  | case3 offset e es h2 err herr => simp at herr
  | case4 offset e es h2 a ha ih =>
    simp only [Except.ok.injEq, List.length_cons] at ha ih h2
    simp only [resultsLoopE, List.length_cons, dif_neg h2]
    rw [h (offset + (es.length + 1)), ha, ih]

/-- The retry recursion of `Client._parse_feed` performs a bounded
number of attempts from any starting try index. -/
lemma parseFeed_tries_le (transport : Nat → Resp) (numRetries : Nat) (url : String)
    (firstPage : Bool) (tryIndex : Nat) :
    (parseFeed transport numRetries url firstPage tryIndex).2.length
      ≤ max 1 (numRetries + 1 - tryIndex) := by
  induction tryIndex using parseFeed.induct transport numRetries url firstPage with
  | case1 x a ha =>
    simp [parseFeed, ha]
  | case2 x a ha hlt ih =>
    rw [parseFeed.eq_def, ha]
    simp only [dif_pos hlt, List.length_cons]
    omega
  | case3 x a ha hge =>
    simp [parseFeed, ha, hge]

/-- When every attempt from `tryIndex` through `numRetries` fails,
`Client._parse_feed` tries exactly the indices `tryIndex .. numRetries`
and re-raises the error of the final attempt. -/
lemma parseFeed_all_fail (transport : Nat → Resp) (numRetries : Nat) (url : String)
    (firstPage : Bool) (tryIndex : Nat) :
    (∀ i, tryIndex ≤ i → i ≤ numRetries →
      isOkE (tryParseFeed url firstPage i (transport i)) = false) →
    tryIndex ≤ numRetries →
    parseFeed transport numRetries url firstPage tryIndex
      = (.error (errOf (tryParseFeed url firstPage numRetries (transport numRetries))),
         List.range' tryIndex (numRetries + 1 - tryIndex)) := by
  induction tryIndex using parseFeed.induct transport numRetries url firstPage with
  | case1 x a ha =>
    intro hfail hle
    have := hfail x le_rfl hle
    rw [ha] at this
    simp [isOkE] at this
  | case2 x a ha hlt ih =>
    intro hfail hle
    have hrec := ih (fun i hi h2 => hfail i (by omega) h2) (by omega)
    rw [parseFeed.eq_def, ha]
    simp only [dif_pos hlt, hrec]
    have hn : numRetries + 1 - x = (numRetries + 1 - (x + 1)) + 1 := by omega
    rw [hn, List.range'_succ]
  | case3 x a ha hge =>
    intro hfail hle
    have hx : x = numRetries := by omega
    subst hx
    have hn : x + 1 - x = 1 := by omega
    rw [parseFeed.eq_def, ha]
    simp [dif_neg hge, errOf, ha, hn, List.range'_one]

/-- Claim C1 (code bug evaluation): the claim says that with an unset cap
and offset 0, `Client.results` over pages covering N records yields
exactly the N decoded ResultRecords in cross-page order without
duplicates. Evaluating the code on two served pages covering two
decodable records shows instead that each entry yields the same function
object `Result._from_feed_entry` (client.py line 167 omits the call), so
the two yielded values are not the decoded records and are duplicates of
each other, even though both entries decode successfully. -/
theorem c1_yield_bug_eval :
    (clientResults (okFetch serverTwoPages) none 0).1
        = [Ev.fetch 0, Ev.out PyVal.funcFromFeedEntry, Ev.fetch 1, Ev.out PyVal.funcFromFeedEntry]
    ∧ Result.fromFeedEntry entryA = Except.ok resultA
    ∧ Result.fromFeedEntry entryB = Except.ok resultB
    ∧ yieldsOf (clientResults (okFetch serverTwoPages) none 0).1
        = [PyVal.funcFromFeedEntry, PyVal.funcFromFeedEntry]
    ∧ yieldsOf (clientResults (okFetch serverTwoPages) none 0).1
        ≠ [PyVal.result resultA, PyVal.result resultB]
    ∧ ¬ (yieldsOf (clientResults (okFetch serverTwoPages) none 0).1).Nodup := by
  have htr : (clientResults (okFetch serverTwoPages) none 0).1
      = [Ev.fetch 0, Ev.out PyVal.funcFromFeedEntry, Ev.fetch 1, Ev.out PyVal.funcFromFeedEntry] := by
    simp [clientResults, limitOf, resultsGenE, resultsLoopE, okFetch, serverTwoPages]
  refine ⟨htr, by decide, by decide, ?_, ?_, ?_⟩
  · rw [htr]; rfl
  · rw [htr]; decide
  · rw [htr]; decide

/-- Claim C2 (code bug evaluation): the claim says that a cap of 0 (or an
offset at or past the cap) produces an empty sequence with no network
call. Evaluating the code with `max_results = 0` at offset 0 against a
one-record server shows that `0` is falsy at client.py line 146, so
`limit` becomes `None` and the drained sequence performs a page fetch
and yields a value rather than being empty. -/
theorem c2_cap_zero_eval :
    clientResults (okFetch serverOne) (some 0) 0
        = ([Ev.fetch 0, Ev.out PyVal.funcFromFeedEntry], none)
    ∧ limitOf (some 0) 0 = none := by
  constructor
  · simp [clientResults, limitOf, resultsGenE, resultsLoopE, okFetch, serverOne]
  · rfl

/-- Claim C3 (counterexample): the claim says a negative cap is rejected
as a ConfigurationError before any network call; evaluating the code at
`max_results = -1` shows it instead returns normally with an empty trace
and no error of any kind (no ConfigurationError exists in the code). -/
theorem c3_counterexample :
    clientResults (okFetch serverTwoPages) (some (-1)) 0 = ([], none) := by
  norm_num [clientResults, limitOf]

/-- Claim C3 (amended): for every negative cap, `Client.results` is not
rejected with an error: it produces an empty sequence immediately, with
no network call and no exception, for every transport and offset. -/
theorem c3_amended_negative_cap (fetch : Nat → Bool → Except FetchErr Feed)
    (offset : Nat) (m : Int) (hm : m < 0) :
    clientResults fetch (some m) offset = ([], none) := by
  have h0 : ¬ m = 0 := by omega
  have hneg : m - (offset : Int) < 0 := by
    have h1 : (0 : Int) ≤ (offset : Int) := Int.natCast_nonneg offset
    omega
  simp [clientResults, limitOf, h0, hneg]

/-- Witness for the amended claim C3 at cap -2 and offset 1. -/
theorem c3_amended_negative_cap_witness :
    clientResults (okFetch serverOne) (some (-2)) 1 = ([], none) :=
  c3_amended_negative_cap (okFetch serverOne) 1 (-2) (by norm_num)

/-- Claim C4 (counterexample): the claim says each acquire call updates
the shared last-request timestamp exactly once; on a successful fetch
the code writes it twice (rate_limiter wrapper line 115 and the fetch
body line 212), so the number of writes is not one. -/
theorem c4_counterexample :
    (rateLimitedTryParseFeed 3 1 "u" true 0 (Resp.resp 200 feedNil) 10 none).writes.length
      ≠ 1 := by
  simp [rateLimitedTryParseFeed, feedNil]

/-- Claim C4 (amended): per acquire call the timestamp is written once by
the rate-limiter wrapper after any suspension and once more by the fetch
body after a completed HTTP response — so exactly twice whenever a
response was obtained and exactly once when the GET raised a connection
error — and when the limiter suspended, the first write records the
post-suspension instant `last + delay`. -/
theorem c4_amended_update_count (delaySeconds getDuration : Nat) (url : String)
    (firstPage : Bool) (tryIndex : Nat) (r : Resp) (now : Nat) (last : Option Nat) :
    (rateLimitedTryParseFeed delaySeconds getDuration url firstPage tryIndex r now last).writes.length
        = (match r with | Resp.connectError => 1 | Resp.resp _ _ => 2)
    ∧ (∀ t, last = some t → now - t < delaySeconds →
        (rateLimitedTryParseFeed delaySeconds getDuration url firstPage tryIndex r now last).writes.head?
          = some (t + delaySeconds)) := by
  constructor
  · cases r with
    | connectError => simp [rateLimitedTryParseFeed]
    | resp status feed =>
      simp only [rateLimitedTryParseFeed]
      split_ifs <;> simp
  · intro t ht hlt
    subst ht
    cases r with
    | connectError => simp [rateLimitedTryParseFeed, if_pos hlt]
    | resp status feed =>
      simp only [rateLimitedTryParseFeed, if_pos hlt]
      split_ifs <;> simp

/-- Witness for the amended claim C4: a successful fetch with delay 3,
previous request at 5 and current clock 6 writes the timestamp twice,
the first write being the post-suspension instant 8. -/
theorem c4_amended_update_count_witness :
    (rateLimitedTryParseFeed 3 1 "u" true 0 (Resp.resp 200 feedNil) 6 (some 5)).writes.length = 2
    ∧ (rateLimitedTryParseFeed 3 1 "u" true 0 (Resp.resp 200 feedNil) 6 (some 5)).writes.head?
        = some 8 := by
  refine ⟨(c4_amended_update_count 3 1 "u" true 0 (Resp.resp 200 feedNil) 6 (some 5)).1, ?_⟩
  have h := (c4_amended_update_count 3 1 "u" true 0 (Resp.resp 200 feedNil) 6 (some 5)).2
    5 rfl (by norm_num)
  simpa using h

/-- Claim C5 (code bug evaluation): the claim says an entry lacking its
identifier is dropped and does not count toward the yielded total while
the rest of the page continues. Evaluating the code on a page holding an
id-less entry followed by a well-formed one shows two values are yielded
— one for the id-less entry as well — because client.py line 167 never
invokes `Result._from_feed_entry`, so the `MissingFieldError` that the
decoder would raise (second conjunct) is never triggered and nothing is
dropped. -/
theorem c5_missing_id_eval :
    yieldsOf (resultsGen serverMissingId 0)
        = [PyVal.funcFromFeedEntry, PyVal.funcFromFeedEntry]
    ∧ Result.fromFeedEntry entryNoId = Except.error "id" := by
  constructor
  · simp [resultsGen, resultsGenE, resultsLoopE, okFetch, serverMissingId, yieldsOf]
  · rfl

/-- Claim C6 (counterexample): the claim says the error propagated after
retry exhaustion carries the URL and the attempt count; when every
attempt fails with a connection error, the propagated error is the
underlying httpx connect error, which carries no attempt count. -/
theorem c6_counterexample :
    (parseFeed (fun _ => Resp.connectError) 3 "u" true 0).1
        = Except.error (FetchErr.connectError "u")
    ∧ FetchErr.retryOf (FetchErr.connectError "u") = none := by
  constructor
  · simp [parseFeed, tryParseFeed]
  · rfl

/-- Claim C6 (amended): every page fetch is retried while
`attempt < num_retries`, so at most `num_retries + 1` attempts occur per
page; when every attempt fails, the attempts tried are exactly
`0 .. num_retries` and the final attempt's error is re-raised; an
HTTP-status or empty-page error carries the URL and its attempt index,
while a connection error does not carry the attempt count; and an error
escaping the first-page fetch surfaces to the caller of
`Client.results`, aborting the sequence. -/
theorem c6_amended_retry_policy (transport : Nat → Resp) (numRetries : Nat)
    (url : String) (firstPage : Bool) :
    (parseFeed transport numRetries url firstPage 0).2.length ≤ numRetries + 1
    ∧ ((∀ i, i ≤ numRetries →
          isOkE (tryParseFeed url firstPage i (transport i)) = false) →
        parseFeed transport numRetries url firstPage 0
          = (.error (errOf (tryParseFeed url firstPage numRetries (transport numRetries))),
             List.range (numRetries + 1)))
    ∧ (∀ i r e, tryParseFeed url firstPage i r = .error e →
        (∀ u, e ≠ FetchErr.connectError u) →
        FetchErr.urlOf e = some url ∧ FetchErr.retryOf e = some i)
    ∧ (∀ (fetch : Nat → Bool → Except FetchErr Feed) (offset : Nat) (e : FetchErr),
        fetch offset true = .error e →
        clientResults fetch none offset = ([Ev.fetch offset], some e)) := by
  refine ⟨?_, ?_, ?_, ?_⟩
  · have h := parseFeed_tries_le transport numRetries url firstPage 0
    omega
  · intro hfail
    have h := parseFeed_all_fail transport numRetries url firstPage 0
      (fun i _ h2 => hfail i h2) (by omega)
    simpa [List.range_eq_range'] using h
  · intro i r e he hnc
    cases r with
    | connectError =>
      simp only [tryParseFeed, Except.error.injEq] at he
      exact absurd he.symm (hnc url)
    | resp status feed =>
      simp only [tryParseFeed] at he
      split_ifs at he with hst hemp
      · simp only [Except.error.injEq] at he
        rw [← he]
        exact ⟨rfl, rfl⟩
      · simp only [Except.error.injEq] at he
        rw [← he]
        exact ⟨rfl, rfl⟩
  · intro fetch offset e hf
    simp [clientResults, limitOf, resultsGenE, hf]

/-- Witness for the amended claim C6: with three attempts all answering
HTTP 500 and `num_retries = 2`, the tried indices are 0, 1, 2 and the
final attempt's HTTPError is propagated. -/
theorem c6_amended_retry_policy_witness :
    parseFeed (fun _ => Resp.resp 500 feedNil) 2 "u" true 0
      = (Except.error (errOf (tryParseFeed "u" true 2 ((fun _ => Resp.resp 500 feedNil) 2))),
         List.range (2 + 1)) :=
  (c6_amended_retry_policy (fun _ => Resp.resp 500 feedNil) 2 "u" true).2.1
    (by intro i _; simp [tryParseFeed, isOkE])

/-- Claim C7: after exhausting each page, the cursor advances its offset
by the number of entries actually present (first conjunct: the requested
page starts are the initial offset followed by the specification
cursor's starts, which advance by the served page's actual length);
it terminates exactly when the advanced offset reaches `total_results`
(second conjunct: every later page start lies strictly below the total,
and the spec cursor emits a next start exactly when the advanced offset
is still below the total); and `total_results` is read once from the
first page and never re-read (third conjunct: the behaviour is unchanged
under any change of later pages' totals). -/
theorem c7_cursor_advance (server : Nat → Feed) (offset : Nat) :
    fetchesOf (resultsGen server offset)
        = offset :: specCursorStarts server (server offset).totalResults offset
    ∧ (∀ s ∈ specCursorStarts server (server offset).totalResults offset,
          offset < s ∧ s < (server offset).totalResults)
    ∧ (∀ server2 : Nat → Feed, (∀ o, (server2 o).entries = (server o).entries) →
          (server2 offset).totalResults = (server offset).totalResults →
          resultsGen server2 offset = resultsGen server offset) := by
  refine ⟨?_, specCursorStarts_mem server _ offset, ?_⟩
  · by_cases hE : (server offset).entries = []
    · rw [specCursorStarts]
      simp [resultsGen, resultsGenE, okFetch, hE, fetchesOf_cons_fetch, fetchesOf_nil]
    · have hne : ((server offset).entries.isEmpty) = false := by
        cases hcase : (server offset).entries with
        | nil => exact absurd hcase hE
        | cons a l => simp [hcase]
      simp only [resultsGen, resultsGenE, okFetch, hne, Bool.false_eq_true, if_false]
      rw [fetchesOf_cons_fetch]
      exact congrArg _ (fetchesOf_loop server _ offset)
  · intro server2 hent htot
    have hloop := resultsLoopE_congr server server2 hent ((server offset).totalResults)
      offset ((server offset).entries)
    simp only [resultsGen, resultsGenE, okFetch, hent offset, htot, hloop]

/-- Witness for claim C7 at the two-page server: its fetch starts follow
the specification cursor, and its trace is invariant when compared
against a server with the same entries and first-page total. -/
theorem c7_cursor_advance_witness :
    fetchesOf (resultsGen serverTwoPages 0)
        = 0 :: specCursorStarts serverTwoPages (serverTwoPages 0).totalResults 0
    ∧ resultsGen serverTwoPages 0 = resultsGen serverTwoPages 0 :=
  ⟨(c7_cursor_advance serverTwoPages 0).1,
   (c7_cursor_advance serverTwoPages 0).2.2 serverTwoPages (fun _ => rfl) rfl⟩

/-- Claim C8: a search whose first fetched page has zero entries
terminates normally — the drained sequence is just the single first-page
fetch with no yields and no error — and an empty feed on the first page
is not an error in `Client.__try_parse_feed` either (the empty-page
exception is only raised when `first_page` is false). -/
theorem c8_empty_first_page (fetch : Nat → Bool → Except FetchErr Feed)
    (offset : Nat) (feed : Feed) (h1 : fetch offset true = Except.ok feed)
    (h2 : feed.entries = []) :
    clientResults fetch none offset = ([Ev.fetch offset], none)
    ∧ (∀ url tryIndex, tryParseFeed url true tryIndex (Resp.resp 200 feed) = Except.ok feed) := by
  constructor
  · simp [clientResults, limitOf, resultsGenE, h1, h2]
  · intro url tryIndex
    simp [tryParseFeed, h2]

/-- Witness for claim C8 at a server always answering an empty feed. -/
theorem c8_empty_first_page_witness :
    clientResults (fun _ _ => Except.ok feedNil) none 0 = ([Ev.fetch 0], none)
    ∧ tryParseFeed "u" true 0 (Resp.resp 200 feedNil) = Except.ok feedNil :=
  ⟨(c8_empty_first_page (fun _ _ => Except.ok feedNil) 0 feedNil rfl rfl).1,
   (c8_empty_first_page (fun _ _ => Except.ok feedNil) 0 feedNil rfl rfl).2 "u" 0⟩

/-- Claim C9 (counterexample): the claim says the decoder never raises on
an unparseable optional numeric field; a feed whose total-results field
holds the text "abc" makes the metadata extraction raise (here: return
`none`) because `int("abc")` raises ValueError. -/
theorem c9_counterexample :
    atomParserMeta ⟨[("opensearch:totalResults", some "abc")]⟩ = none
    ∧ find_text ⟨[("opensearch:totalResults", some "abc")]⟩ "opensearch:totalResults"
        = "abc" := by
  constructor
  · decide
  · decide

/-- Claim C9 (amended): the decoder defaults the total-results count,
start index and items-per-page to 0 when the field is absent (or its
text empty) and raises nothing in that case; but a present, non-empty,
non-numeric value is passed to `int` and raises instead of defaulting. -/
theorem c9_amended_defaults :
    (∀ data : XmlElement,
        data.fields.lookup "opensearch:totalResults" = none →
        data.fields.lookup "opensearch:startIndex" = none →
        data.fields.lookup "opensearch:itemsPerPage" = none →
        atomParserMeta data = some (0, 0, 0))
    ∧ (∀ (data : XmlElement) (s : String),
        find_text data "opensearch:totalResults" = s → ¬ s = "" → pyInt? s = none →
        atomParserMeta data = none) := by
  constructor
  · intro data hA hB hC
    simp [atomParserMeta, find_text, hA, hB, hC, intOrZero]
  · intro data s hs hne hbad
    simp [atomParserMeta, hs, intOrZero, hne, hbad]

/-- Witness for the amended claim C9: all three fields absent decode to
(0, 0, 0) without error. -/
theorem c9_amended_defaults_witness :
    atomParserMeta ⟨[]⟩ = some (0, 0, 0) :=
  c9_amended_defaults.1 ⟨[]⟩ rfl rfl rfl

/-- Claim C10: two Result values compare equal exactly when their
`entry_id` strings are equal, regardless of every other field (the first
conjunct constrains nothing but `entry_id`), and a Result never compares
equal to a non-Result operand. -/
theorem c10_result_eq :
    (∀ a b : Result, resultEq a (PyObj.result b) = true ↔ a.entry_id = b.entry_id)
    ∧ (∀ (a : Result) (x : String), resultEq a (PyObj.other x) = false) := by
  constructor
  · intro a b
    simp [resultEq]
  · intro a x
    rfl

end ArxivReq
